import Mathlib

/-!
Shallow embedding of the slidechain transaction submitter
(src/slidechain/submit.go).

The submitter is an HTTP handler: it decodes a transaction from the
request body, and under a mutex it either adds the transaction to the
in-flight block builder or, when none is open, creates a new builder,
initialises empty chain state with the genesis header, starts the
builder against the current chain state with deadline now + 5s, and
arms a one-shot timer with time.AfterFunc.  The timer callback takes
the same mutex, builds the block, commits it, writes it to the
multichan and clears the builder reference.

Fallible external collaborators (reading the body, proto.Unmarshal,
bc.NewTx, Snapshot.ApplyBlockHeader, BlockBuilder.Start,
BlockBuilder.AddTx, BlockBuilder.Build, Chain.CommitAppliedBlock) are
modelled by boolean outcome flags carried by the request and by the
fire event.  Since the mutex bbmu serialises the handler body (from
the point the lock is taken) and the timer callback, both are modelled
as atomic steps of a transition system over the submitter state.
Besides the fields the Go code stores, the state carries cumulative
event counters (builders created, builders started, timers armed,
timer callbacks run, build sequences run) used only to state the
temporal claims; each counter is incremented exactly at the source
line it counts.
-/

namespace Slidechain

/-- A transaction (bc.Tx), opaque to the submitter, identified by its id. -/
structure Tx where
  id : Nat
deriving DecidableEq

/-- One protocol.BlockBuilder session: created empty by NewBlockBuilder
(line 64), primed by Start with the chain snapshot and the deadline
bc.Millis(nextBlockTime) (line 76), extended by AddTx (line 104).
batchId records which NewBlockBuilder call produced it. -/
structure BlockBuilder where
  batchId : Nat
  started : Bool
  txs : List Tx
  snapshotHeight : Nat
  maxTimeMs : Nat
deriving DecidableEq

/-- A committed block, as committed by CommitAppliedBlock and written to
the multichan (lines 90-96). -/
structure Block where
  height : Nat
  transactions : List Tx
deriving DecidableEq

/-- The submitter plus the chain state it manipulates.

bb, published mirror the submitter struct (lines 20-36); headerInit and
height mirror chain.State() (header presence and committed height); now
is the clock reading used for nextBlockTime (line 65, never advanced:
no claim depends on clock progress); pendingTimer records that a
time.AfterFunc callback is scheduled and has not yet run; halted
records that log.Fatal was reached.  buildersCreated, startedTotal,
armedTotal, firedTotal, sealSeqTotal count, cumulatively: calls to
NewBlockBuilder (line 64), successful bb.Start calls (line 76), calls
to time.AfterFunc (line 82), runs of the timer callback (line 82), and
bb.Build calls in the callback (line 86). -/
structure SubmitterState where
  bb : Option BlockBuilder
  headerInit : Bool
  height : Nat
  published : List Block
  pendingTimer : Bool
  buildersCreated : Nat
  startedTotal : Nat
  armedTotal : Nat
  firedTotal : Nat
  sealSeqTotal : Nat
  halted : Bool
  now : Nat
deriving DecidableEq

/-- bc.Millis of blockInterval = 5 * time.Second (line 18). -/
def blockInterval : Nat := 5000

/-- One inbound HTTP request, carrying the transaction it decodes to and
the outcome of each fallible external call the handler will make on its
behalf: ioutil.ReadAll (line 41), proto.Unmarshal (line 48), bc.NewTx
(line 54), st.ApplyBlockHeader (line 69), bb.Start (line 76), bb.AddTx
(line 104). -/
structure Request where
  readBodyOk : Bool
  unmarshalOk : Bool
  newTxOk : Bool
  tx : Tx
  applyHeaderOk : Bool
  startOk : Bool
  addTxOk : Bool
deriving DecidableEq

/-- Outcomes of the two fallible calls made by the timer callback:
bb.Build (line 86) and chain.CommitAppliedBlock (line 91). -/
structure FireOutcome where
  buildOk : Bool
  commitOk : Bool
deriving DecidableEq

/-- Lines 104-110: err = bb.AddTx(bc.NewCommitmentsTx(tx)); on error the
handler answers 400 and returns, otherwise it answers 204
(StatusNoContent).  Callers guarantee s.bb = some b. -/
def addTx (s : SubmitterState) (b : BlockBuilder) (r : Request) :
    SubmitterState × Nat :=
  if r.addTxOk = false then
    (s, 400)
  else
    ({ s with bb := some { b with txs := b.txs ++ [r.tx] } }, 204)

/-- submitter.ServeHTTP (lines 38-111).  Returns the state after the
handler returns, and the HTTP status written.

Line order is kept: body read (500 on failure), Unmarshal (400),
NewTx (400); then under the lock: if bb is nil, a fresh builder is
stored in bb and buildersCreated counts the NewBlockBuilder call
(line 64); if the chain state header is nil, ApplyBlockHeader is tried
(answering 500 on failure, with bb left holding the fresh unstarted
builder, exactly as in the source); bb.Start is tried (500 on failure,
same remark); on success the deadline now + blockInterval and the
snapshot height are recorded in the builder, time.AfterFunc arms the
one-shot timer (pendingTimer, armedTotal); finally AddTx runs.  When
the header is already present ApplyBlockHeader is not called, so
headerInit := true is a no-op there, matching the source. -/
def serveHTTP (s : SubmitterState) (r : Request) : SubmitterState × Nat :=
  if r.readBodyOk = false then (s, 500)
  else if r.unmarshalOk = false then (s, 400)
  else if r.newTxOk = false then (s, 400)
  else
    match s.bb with
    | some b => addTx s b r
    | none =>
      let b0 : BlockBuilder :=
        { batchId := s.buildersCreated, started := false, txs := [],
          snapshotHeight := 0, maxTimeMs := 0 }
      let s1 : SubmitterState :=
        { s with bb := some b0, buildersCreated := s.buildersCreated + 1 }
      if s1.headerInit = false ∧ r.applyHeaderOk = false then
        (s1, 500)
      else
        let s2 : SubmitterState := { s1 with headerInit := true }
        if r.startOk = false then
          (s2, 500)
        else
          let b1 : BlockBuilder :=
            { b0 with
              started := true, snapshotHeight := s2.height,
              maxTimeMs := s2.now + blockInterval }
          let s3 : SubmitterState :=
            { s2 with
              bb := some b1, pendingTimer := true,
              startedTotal := s2.startedTotal + 1,
              armedTotal := s2.armedTotal + 1 }
          addTx s3 b1 r

/-- The time.AfterFunc callback (lines 82-101), run under the same
mutex: bb.Build (log.Fatal on error, modelled by halted := true, ending
the process), wrap into a bc.Block, chain.CommitAppliedBlock (log.Fatal
on error), s.w.Write(b), then bb = nil.  Running the callback consumes
the one-shot timer (pendingTimer := false, firedTotal); sealSeqTotal
counts the Build-commit-publish sequence the run triggers.  The bb =
nil case would dereference a nil builder; it is modelled as a crash
(halted) and proved unreachable. -/
def timerFire (s : SubmitterState) (f : FireOutcome) : SubmitterState :=
  let s0 : SubmitterState :=
    { s with
      pendingTimer := false, firedTotal := s.firedTotal + 1,
      sealSeqTotal := s.sealSeqTotal + 1 }
  match s.bb with
  | none => { s0 with halted := true }
  | some b =>
    if f.buildOk = false then { s0 with halted := true }
    else if f.commitOk = false then { s0 with halted := true }
    else
      { s0 with
        height := b.snapshotHeight + 1,
        published :=
          s0.published ++ [{ height := b.snapshotHeight + 1, transactions := b.txs }],
        bb := none }

/-- The submitter as the server boots: bb nil, empty chain state, no
block published, no timer pending. -/
def initState : SubmitterState :=
  { bb := none, headerInit := false, height := 0, published := [],
    pendingTimer := false, buildersCreated := 0, startedTotal := 0,
    armedTotal := 0, firedTotal := 0, sealSeqTotal := 0, halted := false,
    now := 0 }

/-- An interleaving event: an HTTP request being served, or the armed
timer callback running. -/
inductive Event where
  | serve : Request → Event
  | fire : FireOutcome → Event
deriving DecidableEq

/-- One step of the interleaving.  A fire step is only enabled while a
timer is pending (time.AfterFunc runs its callback exactly once per
arming); nothing runs once the process has halted (log.Fatal). -/
def step (s : SubmitterState) : Event → Option SubmitterState
  | Event.serve r => if s.halted = true then none else some (serveHTTP s r).1
  | Event.fire f =>
    if s.halted = true then none
    else if s.pendingTimer = true then some (timerFire s f) else none

/-- Run a list of events from a state; none if some event was not
enabled. -/
def run (s : SubmitterState) : List Event → Option SubmitterState
  | [] => some s
  | e :: es =>
    match step s e with
    | some s1 => run s1 es
    | none => none

/-- Serve a list of requests back to back, collecting the HTTP statuses
in order. -/
def runAdmits (s : SubmitterState) : List Request → SubmitterState × List Nat
  | [] => (s, [])
  | r :: rs =>
    let p := serveHTTP s r
    let q := runAdmits p.1 rs
    (q.1, p.2 :: q.2)

/-- A well-formed request (body readable, payload decodable) carrying
transaction t, whose external init calls succeed and whose AddTx call
succeeds iff ok. -/
def goodReq (t : Tx) (ok : Bool) : Request :=
  { readBodyOk := true, unmarshalOk := true, newTxOk := true, tx := t,
    applyHeaderOk := true, startOk := true, addTxOk := ok }

/-- A timer fire whose Build and CommitAppliedBlock calls succeed. -/
def allOkFire : FireOutcome := { buildOk := true, commitOk := true }

/-- A well-formed request on which ApplyBlockHeader fails. -/
def badInitReq : Request :=
  { readBodyOk := true, unmarshalOk := true, newTxOk := true, tx := { id := 1 },
    applyHeaderOk := false, startOk := true, addTxOk := true }

/-- The submitter state after one successful admission from boot: one
open, started builder holding the transaction with id 1, timer pending. -/
def openState : SubmitterState := (serveHTTP initState (goodReq { id := 1 } true)).1

/-- The builder open in openState. -/
def openBuilder : BlockBuilder :=
  { batchId := 0, started := true, txs := [{ id := 1 }], snapshotHeight := 0,
    maxTimeMs := blockInterval }

/-- The submitter state after a request that opened a batch but whose
AddTx call failed: the batch is open with its timer pending and holds
zero transactions. -/
def emptyOpenState : SubmitterState :=
  (serveHTTP initState (goodReq { id := 9 } false)).1

/-- The builder open in emptyOpenState. -/
def emptyOpenBuilder : BlockBuilder :=
  { batchId := 0, started := true, txs := [], snapshotHeight := 0,
    maxTimeMs := blockInterval }

/-- One batch window started from boot: a first well-formed request
carrying t opens the batch, then one request per entry of ps follows,
carrying that entry's transaction, its AddTx call succeeding iff the
entry's flag is true. -/
def oneWindow (t : Tx) (ps : List (Tx × Bool)) : SubmitterState × List Nat :=
  runAdmits initState (goodReq t true :: ps.map fun p => goodReq p.1 p.2)

/-- A sample interleaving: one admission opens a batch, then its timer
fires and the block is committed. -/
def demoTrace : List Event :=
  [Event.serve (goodReq { id := 1 } true), Event.fire allOkFire]

/-- The state demoTrace reaches. -/
def demoFinal : SubmitterState := (run initState demoTrace).getD initState

/-- The inductive invariant of the interleaving: a pending timer points
at an open builder; every timer arming is a successful Start and vice
versa; every callback run triggers exactly one build sequence; armings
exceed callback runs by exactly the one pending timer. -/
def Inv (s : SubmitterState) : Prop :=
  (s.pendingTimer = true → s.bb.isSome = true) ∧
  s.armedTotal = s.startedTotal ∧
  s.sealSeqTotal = s.firedTotal ∧
  s.armedTotal = s.firedTotal + (if s.pendingTimer = true then 1 else 0)

theorem serveHTTP_readFail (s : SubmitterState) (r : Request)
    (h1 : r.readBodyOk = false) : serveHTTP s r = (s, 500) := by
  simp [serveHTTP, h1]

theorem serveHTTP_decodeFail (s : SubmitterState) (r : Request)
    (h1 : r.readBodyOk = true) (h : r.unmarshalOk = false ∨ r.newTxOk = false) :
    serveHTTP s r = (s, 400) := by
  rcases h with h | h
  · simp [serveHTTP, h1, h]
  · by_cases h2 : r.unmarshalOk = false <;> simp [serveHTTP, h1, h2, h]

theorem serveHTTP_addFail (s : SubmitterState) (r : Request) (b : BlockBuilder)
    (hbb : s.bb = some b) (h1 : r.readBodyOk = true) (h2 : r.unmarshalOk = true)
    (h3 : r.newTxOk = true) (h7 : r.addTxOk = false) :
    serveHTTP s r = (s, 400) := by
  simp [serveHTTP, addTx, hbb, h1, h2, h3, h7]

theorem serveHTTP_addOk (s : SubmitterState) (r : Request) (b : BlockBuilder)
    (hbb : s.bb = some b) (h1 : r.readBodyOk = true) (h2 : r.unmarshalOk = true)
    (h3 : r.newTxOk = true) (h7 : r.addTxOk = true) :
    serveHTTP s r = ({ s with bb := some { b with txs := b.txs ++ [r.tx] } }, 204) := by
  simp [serveHTTP, addTx, hbb, h1, h2, h3, h7]

theorem serveHTTP_applyFail (s : SubmitterState) (r : Request)
    (hbb : s.bb = none) (h1 : r.readBodyOk = true) (h2 : r.unmarshalOk = true)
    (h3 : r.newTxOk = true) (hh : s.headerInit = false) (h4 : r.applyHeaderOk = false) :
    serveHTTP s r =
      ({ s with
          bb := some
            { batchId := s.buildersCreated, started := false, txs := [],
              snapshotHeight := 0, maxTimeMs := 0 },
          buildersCreated := s.buildersCreated + 1 }, 500) := by
  simp [serveHTTP, hbb, h1, h2, h3, hh, h4]

theorem serveHTTP_startFail (s : SubmitterState) (r : Request)
    (hbb : s.bb = none) (h1 : r.readBodyOk = true) (h2 : r.unmarshalOk = true)
    (h3 : r.newTxOk = true) (hga : s.headerInit = true ∨ r.applyHeaderOk = true)
    (h5 : r.startOk = false) :
    serveHTTP s r =
      ({ s with
          bb := some
            { batchId := s.buildersCreated, started := false, txs := [],
              snapshotHeight := 0, maxTimeMs := 0 },
          buildersCreated := s.buildersCreated + 1,
          headerInit := true }, 500) := by
  rcases hga with hga | hga <;> simp [serveHTTP, hbb, h1, h2, h3, hga, h5]

theorem serveHTTP_fresh_addOk (s : SubmitterState) (r : Request)
    (hbb : s.bb = none) (h1 : r.readBodyOk = true) (h2 : r.unmarshalOk = true)
    (h3 : r.newTxOk = true) (hga : s.headerInit = true ∨ r.applyHeaderOk = true)
    (h5 : r.startOk = true) (h7 : r.addTxOk = true) :
    serveHTTP s r =
      ({ s with
          bb := some
            { batchId := s.buildersCreated, started := true, txs := [r.tx],
              snapshotHeight := s.height, maxTimeMs := s.now + blockInterval },
          headerInit := true,
          buildersCreated := s.buildersCreated + 1,
          pendingTimer := true,
          startedTotal := s.startedTotal + 1,
          armedTotal := s.armedTotal + 1 }, 204) := by
  rcases hga with hga | hga <;>
    simp [serveHTTP, addTx, hbb, h1, h2, h3, hga, h5, h7]

theorem serveHTTP_fresh_addFail (s : SubmitterState) (r : Request)
    (hbb : s.bb = none) (h1 : r.readBodyOk = true) (h2 : r.unmarshalOk = true)
    (h3 : r.newTxOk = true) (hga : s.headerInit = true ∨ r.applyHeaderOk = true)
    (h5 : r.startOk = true) (h7 : r.addTxOk = false) :
    serveHTTP s r =
      ({ s with
          bb := some
            { batchId := s.buildersCreated, started := true, txs := [],
              snapshotHeight := s.height, maxTimeMs := s.now + blockInterval },
          headerInit := true,
          buildersCreated := s.buildersCreated + 1,
          pendingTimer := true,
          startedTotal := s.startedTotal + 1,
          armedTotal := s.armedTotal + 1 }, 400) := by
  rcases hga with hga | hga <;>
    simp [serveHTTP, addTx, hbb, h1, h2, h3, hga, h5, h7]

theorem timerFire_ok (s : SubmitterState) (f : FireOutcome) (b : BlockBuilder)
    (hbb : s.bb = some b) (hB : f.buildOk = true) (hC : f.commitOk = true) :
    timerFire s f =
      { s with
        pendingTimer := false,
        firedTotal := s.firedTotal + 1,
        sealSeqTotal := s.sealSeqTotal + 1,
        height := b.snapshotHeight + 1,
        published :=
          s.published ++ [{ height := b.snapshotHeight + 1, transactions := b.txs }],
        bb := none } := by
  simp [timerFire, hbb, hB, hC]

theorem timerFire_fail (s : SubmitterState) (f : FireOutcome) (b : BlockBuilder)
    (hbb : s.bb = some b) (h : ¬(f.buildOk = true ∧ f.commitOk = true)) :
    timerFire s f =
      { s with
        pendingTimer := false,
        firedTotal := s.firedTotal + 1,
        sealSeqTotal := s.sealSeqTotal + 1,
        halted := true } := by
  by_cases hB : f.buildOk = true
  · have hC : f.commitOk = false := by
      cases hcc : f.commitOk
      · rfl
      · exact absurd ⟨hB, hcc⟩ h
    simp [timerFire, hbb, hB, hC]
  · have hB2 : f.buildOk = false := by
      cases hbc : f.buildOk
      · rfl
      · exact absurd hbc hB
    simp [timerFire, hbb, hB2]

theorem Inv_initState : Inv initState := by
  refine ⟨?_, rfl, rfl, rfl⟩
  intro h
  simp [initState] at h

theorem Inv_serveHTTP (s : SubmitterState) (r : Request) (h : Inv s) :
    Inv (serveHTTP s r).1 := by
  obtain ⟨i1, i2, i3, i4⟩ := h
  by_cases h1 : r.readBodyOk = true
  case neg =>
    have h1f : r.readBodyOk = false := by
      cases hc : r.readBodyOk
      · rfl
      · exact absurd hc h1
    rw [serveHTTP_readFail s r h1f]
    exact ⟨i1, i2, i3, i4⟩
  by_cases h2 : r.unmarshalOk = true
  case neg =>
    have h2f : r.unmarshalOk = false := by
      cases hc : r.unmarshalOk
      · rfl
      · exact absurd hc h2
    rw [serveHTTP_decodeFail s r h1 (Or.inl h2f)]
    exact ⟨i1, i2, i3, i4⟩
  by_cases h3 : r.newTxOk = true
  case neg =>
    have h3f : r.newTxOk = false := by
      cases hc : r.newTxOk
      · rfl
      · exact absurd hc h3
    rw [serveHTTP_decodeFail s r h1 (Or.inr h3f)]
    exact ⟨i1, i2, i3, i4⟩
  cases hbb : s.bb with
  | some b =>
    by_cases h7 : r.addTxOk = true
    · rw [serveHTTP_addOk s r b hbb h1 h2 h3 h7]
      exact ⟨by simp, i2, i3, i4⟩
    · have h7f : r.addTxOk = false := by
        cases hc : r.addTxOk
        · rfl
        · exact absurd hc h7
      rw [serveHTTP_addFail s r b hbb h1 h2 h3 h7f]
      exact ⟨i1, i2, i3, i4⟩
  | none =>
    have hpt : s.pendingTimer = false := by
      cases hp : s.pendingTimer
      · rfl
      · have hsome := i1 hp
        rw [hbb] at hsome
        simp at hsome
    have i4f : s.armedTotal = s.firedTotal := by
      rw [hpt] at i4
      simpa using i4
    by_cases hga : s.headerInit = false ∧ r.applyHeaderOk = false
    · rw [serveHTTP_applyFail s r hbb h1 h2 h3 hga.1 hga.2]
      exact ⟨by simp, i2, i3, by simp [hpt, i4f]⟩
    · have hga2 : s.headerInit = true ∨ r.applyHeaderOk = true := by
        rcases Decidable.not_and_iff_or_not.mp hga with hx | hx
        · left
          cases hc : s.headerInit
          · exact absurd hc hx
          · rfl
        · right
          cases hc : r.applyHeaderOk
          · exact absurd hc hx
          · rfl
      by_cases h5 : r.startOk = true
      · by_cases h7 : r.addTxOk = true
        · rw [serveHTTP_fresh_addOk s r hbb h1 h2 h3 hga2 h5 h7]
          exact ⟨by simp, by simp [i2], i3, by simp [i4f]⟩
        · have h7f : r.addTxOk = false := by
            cases hc : r.addTxOk
            · rfl
            · exact absurd hc h7
          rw [serveHTTP_fresh_addFail s r hbb h1 h2 h3 hga2 h5 h7f]
          exact ⟨by simp, by simp [i2], i3, by simp [i4f]⟩
      · have h5f : r.startOk = false := by
          cases hc : r.startOk
          · rfl
          · exact absurd hc h5
        rw [serveHTTP_startFail s r hbb h1 h2 h3 hga2 h5f]
        exact ⟨by simp, i2, i3, by simp [hpt, i4f]⟩

theorem Inv_timerFire (s : SubmitterState) (f : FireOutcome)
    (h : Inv s) (hp : s.pendingTimer = true) : Inv (timerFire s f) := by
  obtain ⟨i1, i2, i3, i4⟩ := h
  have i4p : s.armedTotal = s.firedTotal + 1 := by
    rw [hp] at i4
    simpa using i4
  obtain ⟨b, hb⟩ := Option.isSome_iff_exists.mp (i1 hp)
  by_cases hok : f.buildOk = true ∧ f.commitOk = true
  · rw [timerFire_ok s f b hb hok.1 hok.2]
    exact ⟨by simp, i2, by simp [i3], by simp [i4p]⟩
  · rw [timerFire_fail s f b hb hok]
    exact ⟨by simp, i2, by simp [i3], by simp [i4p]⟩

theorem Inv_run (es : List Event) :
    ∀ s t : SubmitterState, Inv s → run s es = some t → Inv t := by
  induction es with
  | nil =>
    intro s t h he
    simp only [run, Option.some.injEq] at he
    exact he ▸ h
  | cons e es ih =>
    intro s t h he
    cases e with
    | serve r =>
      by_cases hh : s.halted = true
      · simp [run, step, hh] at he
      · simp only [run, step, hh, if_false, reduceIte] at he
        exact ih _ t (Inv_serveHTTP s r h) he
    | fire f =>
      by_cases hh : s.halted = true
      · simp [run, step, hh] at he
      · by_cases hp : s.pendingTimer = true
        · simp only [run, step, hh, hp, if_false, if_true, reduceIte] at he
          exact ih _ t (Inv_timerFire s f h hp) he
        · simp [run, step, hh, hp] at he

theorem runAdmits_open (ps : List (Tx × Bool)) :
    ∀ (s : SubmitterState) (b : BlockBuilder), s.bb = some b →
    runAdmits s (ps.map fun p => goodReq p.1 p.2) =
      ({ s with
          bb := some
            { b with txs := b.txs ++ (ps.filter fun p => p.2 = true).map Prod.fst } },
        ps.map fun p => if p.2 = true then 204 else 400) := by
  induction ps with
  | nil =>
    intro s b hbb
    simp only [List.map_nil, List.filter_nil, List.append_nil, runAdmits]
    rw [← hbb]
  | cons p ps ih =>
    intro s b hbb
    cases hpb : p.2 with
    | false =>
      have e : serveHTTP s (goodReq p.1 false) = (s, 400) :=
        serveHTTP_addFail s (goodReq p.1 false) b hbb rfl rfl rfl rfl
      simp only [List.map_cons, runAdmits, hpb, e, ih s b hbb, List.filter_cons]
      simp
    | true =>
      have e : serveHTTP s (goodReq p.1 true) =
          ({ s with bb := some { b with txs := b.txs ++ [p.1] } }, 204) :=
        serveHTTP_addOk s (goodReq p.1 true) b hbb rfl rfl rfl rfl
      have ihs := ih { s with bb := some { b with txs := b.txs ++ [p.1] } }
        { b with txs := b.txs ++ [p.1] } rfl
      simp only [List.map_cons, runAdmits, hpb, e, ihs, List.filter_cons]
      simp [List.append_assoc]

theorem bool_eq_false (b : Bool) (h : ¬b = true) : b = false := by
  cases hc : b
  · rfl
  · exact absurd hc h

theorem serveHTTP_open_cases (s : SubmitterState) (r : Request) (b : BlockBuilder)
    (hbb : s.bb = some b) :
    serveHTTP s r = (s, 500) ∨ serveHTTP s r = (s, 400) ∨
    serveHTTP s r = ({ s with bb := some { b with txs := b.txs ++ [r.tx] } }, 204) := by
  by_cases h1 : r.readBodyOk = true
  case neg => exact Or.inl (serveHTTP_readFail s r (bool_eq_false _ h1))
  by_cases h2 : r.unmarshalOk = true
  case neg =>
    exact Or.inr (Or.inl (serveHTTP_decodeFail s r h1 (Or.inl (bool_eq_false _ h2))))
  by_cases h3 : r.newTxOk = true
  case neg =>
    exact Or.inr (Or.inl (serveHTTP_decodeFail s r h1 (Or.inr (bool_eq_false _ h3))))
  by_cases h7 : r.addTxOk = true
  · exact Or.inr (Or.inr (serveHTTP_addOk s r b hbb h1 h2 h3 h7))
  · exact Or.inr (Or.inl (serveHTTP_addFail s r b hbb h1 h2 h3 (bool_eq_false _ h7)))

theorem serveHTTP_open_armedTotal (s : SubmitterState) (r : Request) (b : BlockBuilder)
    (hbb : s.bb = some b) : (serveHTTP s r).1.armedTotal = s.armedTotal := by
  rcases serveHTTP_open_cases s r b hbb with hc | hc | hc <;> rw [hc]

theorem timerFire_armedTotal (s : SubmitterState) (f : FireOutcome) :
    (timerFire s f).armedTotal = s.armedTotal := by
  by_cases hok : f.buildOk = true ∧ f.commitOk = true
  · cases hbb : s.bb with
    | none => simp [timerFire, hbb]
    | some b => rw [timerFire_ok s f b hbb hok.1 hok.2]
  · cases hbb : s.bb with
    | none => simp [timerFire, hbb]
    | some b => rw [timerFire_fail s f b hbb hok]

/-- C1: along every enabled interleaving of requests and timer callbacks
from boot, timers are armed exactly once per opened (started) batch
(armedTotal = startedTotal), every callback run triggers exactly one
build-commit-publish sequence (sealSeqTotal = firedTotal), and armings
exceed callback runs by exactly the single still-pending one-shot timer
(armedTotal = firedTotal + pending), so no batch's timer is re-triggered;
moreover a request that finds a batch open never arms a timer, and the
callback itself never re-arms one. -/
theorem C1_timer_armed_once (es : List Event) (t : SubmitterState)
    (h : run initState es = some t) :
    (t.armedTotal = t.startedTotal ∧
     t.sealSeqTotal = t.firedTotal ∧
     t.armedTotal = t.firedTotal + (if t.pendingTimer = true then 1 else 0)) ∧
    (∀ (u : SubmitterState) (r : Request) (b : BlockBuilder), u.bb = some b →
      (serveHTTP u r).1.armedTotal = u.armedTotal) ∧
    (∀ (u : SubmitterState) (f : FireOutcome),
      (timerFire u f).armedTotal = u.armedTotal) := by
  obtain ⟨i1, i2, i3, i4⟩ := Inv_run es initState t Inv_initState h
  exact ⟨⟨i2, i3, i4⟩, fun u r b hbb => serveHTTP_open_armedTotal u r b hbb,
    fun u f => timerFire_armedTotal u f⟩

theorem C1_witness :
    (demoFinal.armedTotal = demoFinal.startedTotal ∧
     demoFinal.sealSeqTotal = demoFinal.firedTotal ∧
     demoFinal.armedTotal =
       demoFinal.firedTotal + (if demoFinal.pendingTimer = true then 1 else 0)) ∧
    (∀ (u : SubmitterState) (r : Request) (b : BlockBuilder), u.bb = some b →
      (serveHTTP u r).1.armedTotal = u.armedTotal) ∧
    (∀ (u : SubmitterState) (f : FireOutcome),
      (timerFire u f).armedTotal = u.armedTotal) :=
  C1_timer_armed_once demoTrace demoFinal (by decide)

/-- C2: the coordinator holds a single builder reference; a request that
finds it non-nil never creates a builder (buildersCreated is unchanged
and the same session, possibly extended by the one transaction, stays in
place), and the timer callback resets the reference to nil after a
successful commit — so at most one builder session exists at any
instant. -/
theorem C2_single_builder (s : SubmitterState) (r : Request) (f : FireOutcome)
    (b : BlockBuilder) (hbb : s.bb = some b)
    (hB : f.buildOk = true) (hC : f.commitOk = true) :
    ((serveHTTP s r).1.bb = some b ∨
      (serveHTTP s r).1.bb = some { b with txs := b.txs ++ [r.tx] }) ∧
    (serveHTTP s r).1.buildersCreated = s.buildersCreated ∧
    (timerFire s f).bb = none := by
  have hf := timerFire_ok s f b hbb hB hC
  rcases serveHTTP_open_cases s r b hbb with hc | hc | hc
  · exact ⟨Or.inl (by rw [hc]; exact hbb), by rw [hc], by rw [hf]⟩
  · exact ⟨Or.inl (by rw [hc]; exact hbb), by rw [hc], by rw [hf]⟩
  · exact ⟨Or.inr (by rw [hc]), by rw [hc], by rw [hf]⟩

theorem C2_witness :
    ((serveHTTP openState (goodReq { id := 5 } true)).1.bb = some openBuilder ∨
      (serveHTTP openState (goodReq { id := 5 } true)).1.bb =
        some { openBuilder with txs := openBuilder.txs ++ [{ id := 5 }] }) ∧
    (serveHTTP openState (goodReq { id := 5 } true)).1.buildersCreated =
      openState.buildersCreated ∧
    (timerFire openState allOkFire).bb = none :=
  C2_single_builder openState (goodReq { id := 5 } true) allOkFire openBuilder
    (by decide) rfl rfl

/-- C3: over one batch window opened by a successful admission of t and
followed by one admission attempt per entry of ps (succeeding iff the
entry's flag is set), every attempt is answered 204 exactly when its
AddTx succeeded, and the block sealed and published when the timer fires
carries exactly the successfully admitted transactions, once each, in
admission order: t followed by the flagged entries of ps in order. -/
theorem C3_admitted_exactly_in_order (t : Tx) (ps : List (Tx × Bool)) :
    (oneWindow t ps).2 = 204 :: (ps.map fun p => if p.2 = true then 204 else 400) ∧
    (timerFire (oneWindow t ps).1 allOkFire).published =
      [{ height := 1, transactions := t :: (ps.filter fun p => p.2 = true).map Prod.fst }] ∧
    (timerFire (oneWindow t ps).1 allOkFire).bb = none := by
  have e1 : serveHTTP initState (goodReq t true) =
      ({ bb := some
            { batchId := 0, started := true, txs := [t], snapshotHeight := 0,
              maxTimeMs := 5000 },
         headerInit := true, height := 0, published := [], pendingTimer := true,
         buildersCreated := 1, startedTotal := 1, armedTotal := 1, firedTotal := 0,
         sealSeqTotal := 0, halted := false, now := 0 }, 204) := by
    simp [serveHTTP, addTx, goodReq, initState, blockInterval]
  have e2 := runAdmits_open ps
    { bb := some
        { batchId := 0, started := true, txs := [t], snapshotHeight := 0,
          maxTimeMs := 5000 },
      headerInit := true, height := 0, published := [], pendingTimer := true,
      buildersCreated := 1, startedTotal := 1, armedTotal := 1, firedTotal := 0,
      sealSeqTotal := 0, halted := false, now := 0 }
    { batchId := 0, started := true, txs := [t], snapshotHeight := 0,
      maxTimeMs := 5000 } rfl
  have e3 : oneWindow t ps =
      ({ bb := some
            { batchId := 0, started := true,
              txs := t :: (ps.filter fun p => p.2 = true).map Prod.fst,
              snapshotHeight := 0, maxTimeMs := 5000 },
         headerInit := true, height := 0, published := [], pendingTimer := true,
         buildersCreated := 1, startedTotal := 1, armedTotal := 1, firedTotal := 0,
         sealSeqTotal := 0, halted := false, now := 0 },
       204 :: ps.map fun p => if p.2 = true then 204 else 400) := by
    simp only [oneWindow, runAdmits, e1, e2]
    simp
  rw [e3]
  refine ⟨rfl, ?_, ?_⟩
  · rw [timerFire_ok _ allOkFire
      { batchId := 0, started := true,
        txs := t :: (ps.filter fun p => p.2 = true).map Prod.fst,
        snapshotHeight := 0, maxTimeMs := 5000 } rfl rfl rfl]
    simp
  · rw [timerFire_ok _ allOkFire
      { batchId := 0, started := true,
        txs := t :: (ps.filter fun p => p.2 = true).map Prod.fst,
        snapshotHeight := 0, maxTimeMs := 5000 } rfl rfl rfl]

/-- C4: the timer callback writes the batch block to the publication
channel exactly when both Build and CommitAppliedBlock succeed, in which
case the process continues; if either fails, nothing is published and
the process halts fatally. -/
theorem C4_publish_only_after_commit (s : SubmitterState) (f : FireOutcome)
    (b : BlockBuilder) (hbb : s.bb = some b) :
    (f.buildOk = true ∧ f.commitOk = true →
      (timerFire s f).published =
        s.published ++ [{ height := b.snapshotHeight + 1, transactions := b.txs }] ∧
      (timerFire s f).halted = s.halted) ∧
    (¬(f.buildOk = true ∧ f.commitOk = true) →
      (timerFire s f).published = s.published ∧
      (timerFire s f).halted = true) := by
  constructor
  · rintro ⟨hB, hC⟩
    rw [timerFire_ok s f b hbb hB hC]
    exact ⟨rfl, rfl⟩
  · intro h
    rw [timerFire_fail s f b hbb h]
    exact ⟨rfl, rfl⟩

theorem C4_witness :
    (allOkFire.buildOk = true ∧ allOkFire.commitOk = true →
      (timerFire openState allOkFire).published =
        openState.published ++
          [{ height := openBuilder.snapshotHeight + 1,
             transactions := openBuilder.txs }] ∧
      (timerFire openState allOkFire).halted = openState.halted) ∧
    (¬(allOkFire.buildOk = true ∧ allOkFire.commitOk = true) →
      (timerFire openState allOkFire).published = openState.published ∧
      (timerFire openState allOkFire).halted = true) :=
  C4_publish_only_after_commit openState allOkFire openBuilder (by decide)

/-- C5: contrary to the claim, when initialization fails while handling
a request that found no open batch (here: ApplyBlockHeader fails on
empty state), the handler answers 500 but the coordinator does not
return to IDLE: the builder reference already points at the fresh
builder, no timer is pending, the header is still uninitialized, and
the next well-formed request is admitted (204) into that stuck builder
without retrying initialization and without ever arming a timer. -/
theorem C5_init_failure_not_idle :
    (serveHTTP initState badInitReq).2 = 500 ∧
    (serveHTTP initState badInitReq).1.bb ≠ none ∧
    (serveHTTP initState badInitReq).1.pendingTimer = false ∧
    (serveHTTP initState badInitReq).1.headerInit = false ∧
    (serveHTTP (serveHTTP initState badInitReq).1 (goodReq { id := 2 } true)).2 = 204 ∧
    (serveHTTP (serveHTTP initState badInitReq).1
        (goodReq { id := 2 } true)).1.pendingTimer = false ∧
    (serveHTTP (serveHTTP initState badInitReq).1
        (goodReq { id := 2 } true)).1.headerInit = false := by
  decide

/-- C6: if AddTx fails on an open batch, the request is answered 400 and
the submitter state — builder reference, its contents, and the pending
timer — is exactly unchanged; a subsequent well-formed request whose
AddTx succeeds is still admitted (204) into the same batch. -/
theorem C6_addtx_failure_batch_open (s : SubmitterState) (r r2 : Request)
    (b : BlockBuilder) (hbb : s.bb = some b)
    (h1 : r.readBodyOk = true) (h2 : r.unmarshalOk = true) (h3 : r.newTxOk = true)
    (h7 : r.addTxOk = false)
    (g1 : r2.readBodyOk = true) (g2 : r2.unmarshalOk = true) (g3 : r2.newTxOk = true)
    (g7 : r2.addTxOk = true) :
    serveHTTP s r = (s, 400) ∧
    serveHTTP s r2 =
      ({ s with bb := some { b with txs := b.txs ++ [r2.tx] } }, 204) :=
  ⟨serveHTTP_addFail s r b hbb h1 h2 h3 h7,
   serveHTTP_addOk s r2 b hbb g1 g2 g3 g7⟩

theorem C6_witness :
    serveHTTP openState (goodReq { id := 2 } false) = (openState, 400) ∧
    serveHTTP openState (goodReq { id := 3 } true) =
      ({ openState with
          bb := some { openBuilder with txs := openBuilder.txs ++ [{ id := 3 }] } },
        204) :=
  C6_addtx_failure_batch_open openState (goodReq { id := 2 } false)
    (goodReq { id := 3 } true) openBuilder (by decide) rfl rfl rfl rfl rfl rfl rfl rfl

/-- C7: a well-formed request that finds no open batch and whose
initialization calls succeed initializes the chain header, opens exactly
one new builder against the current chain state with deadline now plus
the fixed block interval, arms the one-shot timer, appends its
transaction as the sole entry, and is answered 204 (no content). -/
theorem C7_idle_admit_opens_batch (s : SubmitterState) (r : Request)
    (hbb : s.bb = none) (h1 : r.readBodyOk = true) (h2 : r.unmarshalOk = true)
    (h3 : r.newTxOk = true) (h4 : r.applyHeaderOk = true) (h5 : r.startOk = true)
    (h7 : r.addTxOk = true) :
    serveHTTP s r =
      ({ s with
          bb := some
            { batchId := s.buildersCreated, started := true, txs := [r.tx],
              snapshotHeight := s.height, maxTimeMs := s.now + blockInterval },
          headerInit := true,
          buildersCreated := s.buildersCreated + 1,
          pendingTimer := true,
          startedTotal := s.startedTotal + 1,
          armedTotal := s.armedTotal + 1 }, 204) :=
  serveHTTP_fresh_addOk s r hbb h1 h2 h3 (Or.inr h4) h5 h7

theorem C7_witness :
    serveHTTP initState (goodReq { id := 1 } true) =
      ({ initState with
          bb := some
            { batchId := initState.buildersCreated, started := true,
              txs := [{ id := 1 }], snapshotHeight := initState.height,
              maxTimeMs := initState.now + blockInterval },
          headerInit := true,
          buildersCreated := initState.buildersCreated + 1,
          pendingTimer := true,
          startedTotal := initState.startedTotal + 1,
          armedTotal := initState.armedTotal + 1 }, 204) :=
  C7_idle_admit_opens_batch initState (goodReq { id := 1 } true)
    rfl rfl rfl rfl rfl rfl rfl

/-- C8: a request whose payload fails protobuf unmarshalling, or whose
transaction construction fails, is answered 400 (client error) and the
submitter state is exactly untouched: no builder opened or changed, no
timer armed. -/
theorem C8_decode_failure_untouched (s : SubmitterState) (r : Request)
    (h1 : r.readBodyOk = true) (h : r.unmarshalOk = false ∨ r.newTxOk = false) :
    serveHTTP s r = (s, 400) :=
  serveHTTP_decodeFail s r h1 h

theorem C8_witness :
    serveHTTP initState { badInitReq with unmarshalOk := false } = (initState, 400) :=
  C8_decode_failure_untouched initState { badInitReq with unmarshalOk := false }
    rfl (Or.inl rfl)

/-- C9: when the timer fires on an open batch holding zero transactions
(such as after the opening request's AddTx failed), the batch is still
built, committed (the chain height advances past the batch snapshot) and
published as a block with an empty transaction list, and the builder is
cleared. -/
theorem C9_empty_batch_sealed (s : SubmitterState) (b : BlockBuilder) (f : FireOutcome)
    (hbb : s.bb = some b) (hempty : b.txs = [])
    (hB : f.buildOk = true) (hC : f.commitOk = true) :
    (timerFire s f).published =
      s.published ++ [{ height := b.snapshotHeight + 1, transactions := [] }] ∧
    (timerFire s f).height = b.snapshotHeight + 1 ∧
    (timerFire s f).bb = none ∧
    (timerFire s f).halted = s.halted := by
  rw [timerFire_ok s f b hbb hB hC, hempty]
  exact ⟨rfl, rfl, rfl, rfl⟩

theorem C9_witness :
    (timerFire emptyOpenState allOkFire).published =
      emptyOpenState.published ++
        [{ height := emptyOpenBuilder.snapshotHeight + 1, transactions := [] }] ∧
    (timerFire emptyOpenState allOkFire).height = emptyOpenBuilder.snapshotHeight + 1 ∧
    (timerFire emptyOpenState allOkFire).bb = none ∧
    (timerFire emptyOpenState allOkFire).halted = emptyOpenState.halted :=
  C9_empty_batch_sealed emptyOpenState emptyOpenBuilder allOkFire
    (by decide) rfl rfl rfl

/-- C10: a request whose body cannot be read is answered 500 (server
error, not a client error) and the submitter state is exactly untouched:
no batch opened, no timer armed, no transaction admitted. -/
theorem C10_read_failure_untouched (s : SubmitterState) (r : Request)
    (h1 : r.readBodyOk = false) : serveHTTP s r = (s, 500) :=
  serveHTTP_readFail s r h1

theorem C10_witness :
    serveHTTP initState { badInitReq with readBodyOk := false } = (initState, 500) :=
  C10_read_failure_untouched initState { badInitReq with readBodyOk := false } rfl

end Slidechain
